import Mathlib

/-!
Shallow embedding of the `wearthy-site` discovery-call lead-intake handler.

The repository contains several revisions of the same endpoint:
* `handler` below embeds the full-payload revision of
  `src/api/hubspot/discovery-call.ts` (single contact payload, photo
  uploads, note creation);
* `handlerV2` embeds the revision that checks the API key first and splits
  the contact write into a basic-fields payload plus a delayed
  custom-properties PATCH.

External effects are modelled by an `Upstream` oracle that fixes the CRM's
answers (create status/body, update body, per-photo upload outcomes), and
the handler is a pure function from the oracle and the request to the list
of outbound calls it issues together with its HTTP response.
-/

namespace Wearthy

/-- JavaScript truthiness of a possibly-undefined string
(`undefined` and `""` are falsy). -/
def truthy : Option String → Bool
  | none => false
  | some s => !(s == "")

/-- `x || ''` where `x` is a possibly-undefined string. -/
def jsOr (o : Option String) : String := o.getD ""

/-- `s || ''` where `s` is a string (identity, kept for faithfulness). -/
def jsOrStr (s : String) : String := if s == "" then "" else s

/-- Template-literal interpolation of a possibly-undefined string:
JS renders `undefined` as the text `"undefined"`. -/
def jsInterp (o : Option String) : String := o.getD "undefined"

/-! ## Regex `/Existing ID: (\d+)/` -/

/-- Longest run of decimal digits at the front of the character list
(the greedy `\d+` capture). -/
def leadingDigits : List Char → List Char
  | [] => []
  | c :: cs => if c.isDigit then c :: leadingDigits cs else []

/-- The literal part of the conflict-message pattern. -/
def existingIdLit : List Char := "Existing ID: ".toList

/-- Try to match `Existing ID: (\d+)` at the head of the list. -/
def matchIdAt (s : List Char) : Option String :=
  if existingIdLit.isPrefixOf s then
    let ds := leadingDigits (s.drop existingIdLit.length)
    if ds.isEmpty then none else some (String.mk ds)
  else none

/-- Leftmost match of the pattern anywhere in the list. -/
def findExistingId : List Char → Option String
  | [] => none
  | c :: cs =>
    match matchIdAt (c :: cs) with
    | some d => some d
    | none => findExistingId cs

/-- `errorData.message.match(/Existing ID: (\d+)/)?.[1]` -/
def parseExistingId (msg : String) : Option String := findExistingId msg.toList

/-! ## Name splitting -/

/-- Whitespace characters removed by JS `String.prototype.trim`
(restricted to the ASCII ones relevant here). -/
def jsWS (c : Char) : Bool :=
  c == ' ' || c == '\t' || c == '\n' || c == '\r' || c == '\x0b' || c == '\x0c'

/-- `s.trim()` at the character-list level. -/
def jsTrimL (l : List Char) : List Char :=
  ((l.dropWhile jsWS).reverse.dropWhile jsWS).reverse

/-- `s.trim()`. -/
def jsTrim (s : String) : String := String.mk (jsTrimL s.toList)

/-- `s.split(' ')` at the character-list level: split on every single
space, keeping empty segments (JS semantics). -/
def splitSp : List Char → List (List Char)
  | [] => [[]]
  | c :: cs =>
    if c = ' ' then [] :: splitSp cs
    else (c :: (splitSp cs).headD []) :: (splitSp cs).tail

/-- `nameParts` of the handler: `fullName.trim().split(' ')`. -/
def nameParts (contactName : Option String) : List (List Char) :=
  splitSp (jsTrimL (jsOr contactName).toList)

/-- `nameParts[0] || ''`. -/
def firstname (contactName : Option String) : String :=
  jsOrStr (String.mk ((nameParts contactName).headD []))

/-- `nameParts.slice(1).join(' ') || ''`. -/
def lastname (contactName : Option String) : String :=
  jsOrStr (String.mk (List.intercalate [' '] ((nameParts contactName).drop 1)))

/-! ## Form data and payloads -/

/-- The transport value of the repeatable `phase[]` key: absent, a single
string, or an array of strings. -/
inductive Phase where
  | absent : Phase
  | single (s : String) : Phase
  | multi (l : List String) : Phase
deriving DecidableEq

/-- `Array.isArray(v) ? v.join(';') : v || ''`. -/
def planningStage : Phase → String
  | .absent => ""
  | .single s => jsOrStr s
  | .multi l => String.intercalate ";" l

/-- The parsed request body.  `none` models an absent (undefined) field. -/
structure FormData where
  contactName : Option String := none
  email : Option String := none
  phone : Option String := none
  serviceName : Option String := none
  position : Option String := none
  serviceType : Option String := none
  studentCount : Option String := none
  indicativeBudget : Option String := none
  ageGroup : Option String := none
  additionalInfo : Option String := none
  phase : Phase := .absent
  photos : Option (List String) := none
deriving DecidableEq

/-- A JSON object entry whose value may be `undefined`:
`JSON.stringify` drops the key in that case. -/
def optEntry (k : String) (v : Option String) : List (String × String) :=
  match v with
  | none => []
  | some s => [(k, s)]

/-- The serialized properties of the full contact payload
(revision 1): basic fields (dropped when undefined) followed by the
custom fields, which always default to `''`. -/
def contactProps (f : FormData) : List (String × String) :=
  optEntry "email" f.email
    ++ [("firstname", firstname f.contactName),
        ("lastname", lastname f.contactName)]
    ++ optEntry "phone" f.phone
    ++ optEntry "company" f.serviceName
    ++ optEntry "jobtitle" f.position
    ++ [("wearthy_service_type", jsOr f.serviceType),
        ("wearthy_student_count", jsOr f.studentCount),
        ("wearthy_budget_range", jsOr f.indicativeBudget),
        ("wearthy_age_group", jsOr f.ageGroup),
        ("wearthy_planning_stage", jsOrStr (planningStage f.phase)),
        ("message", jsOr f.additionalInfo),
        ("wearthy_discovery_call_requested", "true")]

/-- The basic-fields payload of the split revision (revision 2). -/
def basicProps (f : FormData) : List (String × String) :=
  optEntry "email" f.email
    ++ [("firstname", firstname f.contactName),
        ("lastname", lastname f.contactName)]
    ++ optEntry "phone" f.phone
    ++ optEntry "company" f.serviceName
    ++ optEntry "jobtitle" f.position

/-- The custom-properties payload of the split revision's delayed PATCH. -/
def customProps (f : FormData) : List (String × String) :=
  [("wearthy_service_type", jsOr f.serviceType),
   ("wearthy_student_count", jsOr f.studentCount),
   ("wearthy_budget_range", jsOr f.indicativeBudget),
   ("wearthy_age_group", jsOr f.ageGroup),
   ("wearthy_planning_stage", jsOrStr (planningStage f.phase)),
   ("message", jsOr f.additionalInfo),
   ("wearthy_discovery_call_requested", "true")]

/-! ## Outbound calls, oracle, request and response -/

/-- One outbound HTTP call to the CRM. -/
inductive Call where
  | createContact (props : List (String × String)) : Call
  | updateContact (target : String) (props : List (String × String)) : Call
  | uploadFile (fileData fileName : String) : Call
  | createNote (contactId : String) (attachmentIds : String) : Call
deriving DecidableEq

def Call.isUpdate : Call → Bool
  | .updateContact _ _ => true
  | _ => false

def Call.isCreate : Call → Bool
  | .createContact _ => true
  | _ => false

def Call.isUpload : Call → Bool
  | .uploadFile _ _ => true
  | _ => false

def Call.isNote : Call → Bool
  | .createNote _ _ => true
  | _ => false

/-- Fixed answers of the external world for one request:
the configured API key, the create response (status, JSON `message`,
JSON `id`), the update response's `id`, the per-photo upload outcome
(`some id` when the upload response is ok and carries an id), and the
clock value used in generated filenames. -/
structure Upstream where
  apiKey : Option String := some "key"
  createStatus : Nat := 201
  createMessage : String := ""
  createId : Option String := none
  updateId : Option String := none
  upload : Nat → Option String := fun _ => none
  now : Nat := 0

/-- The inbound HTTP request. -/
structure Request where
  method : String := "POST"
  body : FormData := {}

/-- The handler's HTTP response: status code and the JSON body fields
(`contactId = none` models an absent/undefined field). -/
structure ApiResponse where
  status : Nat
  success : Bool
  contactId : Option String
  message : String
deriving DecidableEq

def methodNotAllowedMsg : String := "Method not allowed"
def successMsg : String := "Thank you! Please select a time below to speak with Flora."
def genericErrorMsg : String := "An error occurred. Please try again or contact us directly."
def configErrorMsg : String := "Server configuration error. Please contact support."

/-! ## Photo upload sub-flow -/

/-- Does the data-URL contain a comma?  `fileData.split(',')[1]` is a
string exactly when it does; otherwise it is `undefined` and
`Buffer.from(undefined, 'base64')` throws (caught inside the helper).
`Buffer.from` never throws on a string, however malformed the base64. -/
def hasComma (s : String) : Bool := s.toList.contains ','

/-- `uploadFileToHubSpot`: returns the calls it issues and `result.id`
(`none` both when the decode step throws — no call issued — and when the
upload response is not ok). `res` is the oracle's outcome for this call. -/
def uploadFileToHubSpot (res : Option String) (fileData fileName : String) :
    List Call × Option String :=
  if hasComma fileData then ([Call.uploadFile fileData fileName], res)
  else ([], none)

/-- Generated filename for photo `i`. -/
def photoFileName (now i : Nat) : String :=
  "discovery-call-photo-" ++ toString now ++ "-" ++ toString i ++ ".jpg"

/-- The sequential upload loop from index `i`: the calls issued and the
collected truthy file ids, in order. -/
def photosGo (env : Upstream) : Nat → List String → List Call × List String
  | _, [] => ([], [])
  | i, p :: ps =>
    let step := uploadFileToHubSpot (env.upload i) p (photoFileName env.now i)
    let rest := photosGo env (i + 1) ps
    (step.1 ++ rest.1,
      match step.2 with
      | some fid => if fid == "" then rest.2 else fid :: rest.2
      | none => rest.2)

/-- `createNoteWithAttachments`: one note-create call; its failure is
swallowed, so only the call matters. -/
def createNoteWithAttachments (contactId : String) (fileIds : List String) :
    List Call :=
  [Call.createNote contactId (String.intercalate ";" fileIds)]

/-- The photo block of the handler: runs only when `photos` is a
non-empty array and `contactId` is truthy; creates a note only when at
least one file id was collected. -/
def photoPhase (env : Upstream) (contactId : Option String) :
    Option (List String) → List Call
  | none => []
  | some l =>
    if l ≠ [] ∧ truthy contactId then
      let r := photosGo env 0 l
      r.1 ++ (if r.2 ≠ [] then
                createNoteWithAttachments (jsInterp contactId) r.2
              else [])
    else []

/-! ## Handler, full-payload revision -/

/-- The full-payload revision of the endpoint: one payload for create and
update, then the photo block. -/
def handler (env : Upstream) (req : Request) : List Call × ApiResponse :=
  if req.method ≠ "POST" then
    ([], ⟨405, false, none, methodNotAllowedMsg⟩)
  else
    let f := req.body
    let payload := contactProps f
    let createCall := Call.createContact payload
    if env.createStatus = 409 then
      match parseExistingId env.createMessage with
      | some eid =>
        let contactId := env.updateId
        let pcs := photoPhase env contactId f.photos
        (createCall :: Call.updateContact eid payload :: pcs,
          ⟨200, true, contactId, successMsg⟩)
      | none =>
        let pcs := photoPhase env none f.photos
        (createCall :: pcs, ⟨200, true, none, successMsg⟩)
    else if 200 ≤ env.createStatus ∧ env.createStatus ≤ 299 then
      let contactId := env.createId
      let pcs := photoPhase env contactId f.photos
      (createCall :: pcs, ⟨200, true, contactId, successMsg⟩)
    else
      ([createCall], ⟨500, false, none, genericErrorMsg⟩)

/-! ## Handler, split-payload revision -/

/-- The split-payload revision: checks the API key first, creates or
updates with only the basic fields, then PATCHes the custom properties
after a delay, then the photo block. -/
def handlerV2 (env : Upstream) (req : Request) : List Call × ApiResponse :=
  if req.method ≠ "POST" then
    ([], ⟨405, false, none, methodNotAllowedMsg⟩)
  else if ¬ truthy env.apiKey then
    ([], ⟨500, false, none, configErrorMsg⟩)
  else
    let f := req.body
    let basic := basicProps f
    let custom := customProps f
    let createCall := Call.createContact basic
    if env.createStatus = 409 then
      match parseExistingId env.createMessage with
      | some eid =>
        let contactId := env.updateId
        let cpCall := Call.updateContact (jsInterp contactId) custom
        let pcs := photoPhase env contactId f.photos
        (createCall :: Call.updateContact eid basic :: cpCall :: pcs,
          ⟨200, true, contactId, successMsg⟩)
      | none =>
        let pcs := photoPhase env none f.photos
        (createCall :: pcs, ⟨200, true, none, successMsg⟩)
    else if 200 ≤ env.createStatus ∧ env.createStatus ≤ 299 then
      let contactId := env.createId
      let cpCall := Call.updateContact (jsInterp contactId) custom
      let pcs := photoPhase env contactId f.photos
      (createCall :: cpCall :: pcs, ⟨200, true, contactId, successMsg⟩)
    else
      ([createCall], ⟨500, false, none, genericErrorMsg⟩)

/-! ## Spec-side name-splitting (the claim's words, for comparison) -/

/-- Everything after the first space, or nothing when there is no space. -/
def afterSp : List Char → List Char
  | [] => []
  | c :: cs => if c = ' ' then cs else afterSp cs

/-- Modelled from the claim's words: the substring of the contact name
before its first space (the entire string if it contains no space). -/
def specFirstname (s : String) : String :=
  String.mk (s.toList.takeWhile (fun c => !(c == ' ')))

/-- Modelled from the claim's words: the remainder after the first space
(or the empty string). -/
def specLastname (s : String) : String :=
  String.mk (afterSp s.toList)

/-- The five optional enumerated contact properties. -/
def enumKeys : List String :=
  ["wearthy_service_type", "wearthy_student_count", "wearthy_budget_range",
   "wearthy_age_group", "wearthy_planning_stage"]

/-! ## Helper lemmas -/

theorem jsOrStr_eq (s : String) : jsOrStr s = s := by
  unfold jsOrStr
  split
  · next h => exact (eq_of_beq h).symm
  · rfl

theorem splitSp_ne_nil (l : List Char) : splitSp l ≠ [] := by
  cases l with
  | nil => simp [splitSp]
  | cons c cs =>
    unfold splitSp
    split <;> simp

theorem headD_splitSp (l : List Char) :
    (splitSp l).headD [] = l.takeWhile (fun c => !(c == ' ')) := by
  induction l with
  | nil => rfl
  | cons c cs ih =>
    unfold splitSp
    by_cases h : c = ' '
    · simp [h, List.takeWhile_cons]
    · have hb : (c == ' ') = false := by simp [h]
      simp only [if_neg h, List.headD_cons, List.takeWhile_cons, hb,
        Bool.not_false, if_true]
      exact congrArg (List.cons c) ih

theorem intercalate_singleton (s p : List Char) :
    List.intercalate s [p] = p := by
  simp [List.intercalate, List.intersperse]

theorem intercalate_cons2 (s p q : List Char) (qs : List (List Char)) :
    List.intercalate s (p :: q :: qs) =
      p ++ s ++ List.intercalate s (q :: qs) := by
  simp [List.intercalate, List.intersperse]

theorem intercalate_splitSp (l : List Char) :
    List.intercalate [' '] (splitSp l) = l := by
  induction l with
  | nil => rfl
  | cons c cs ih =>
    unfold splitSp
    obtain ⟨p, ps, hps⟩ := List.exists_cons_of_ne_nil (splitSp_ne_nil cs)
    rw [hps] at ih
    by_cases h : c = ' '
    · subst h
      rw [if_pos rfl, hps, intercalate_cons2]
      simpa using ih
    · rw [if_neg h, hps]
      simp only [List.headD_cons, List.tail_cons]
      cases ps with
      | nil =>
        rw [intercalate_singleton] at ih ⊢
        rw [ih]
      | cons q qs =>
        rw [intercalate_cons2] at ih ⊢
        simp only [List.cons_append]
        rw [ih]

theorem drop_one_splitSp (l : List Char) :
    List.intercalate [' '] ((splitSp l).drop 1) = afterSp l := by
  induction l with
  | nil => rfl
  | cons c cs ih =>
    unfold splitSp afterSp
    by_cases h : c = ' '
    · rw [if_pos h, if_pos h]
      simp only [List.drop_succ_cons, List.drop_zero]
      exact intercalate_splitSp cs
    · rw [if_neg h, if_neg h]
      obtain ⟨p, ps, hps⟩ := List.exists_cons_of_ne_nil (splitSp_ne_nil cs)
      rw [hps]
      rw [hps] at ih
      simpa using ih

theorem photosGo_mem_isUpload (env : Upstream) :
    ∀ (l : List String) (i : Nat), ∀ c ∈ (photosGo env i l).1, c.isUpload = true := by
  intro l
  induction l with
  | nil => intro i c hc; simp [photosGo] at hc
  | cons p ps ih =>
    intro i c hc
    simp only [photosGo, uploadFileToHubSpot] at hc
    by_cases h : hasComma p = true
    · rw [if_pos h] at hc
      rcases List.mem_append.mp hc with h1 | h2
      · rw [List.mem_singleton.mp h1]
        rfl
      · exact ih (i + 1) c h2
    · rw [if_neg h] at hc
      exact ih (i + 1) c (by simpa using hc)

theorem photoPhase_mem (env : Upstream) (cid : Option String)
    (ph : Option (List String)) :
    ∀ c ∈ photoPhase env cid ph, c.isUpload = true ∨ c.isNote = true := by
  intro c hc
  unfold photoPhase at hc
  cases ph with
  | none => simp at hc
  | some l =>
    simp only at hc
    split at hc
    · rcases List.mem_append.mp hc with h1 | h2
      · exact Or.inl (photosGo_mem_isUpload env l 0 c h1)
      · right
        split at h2
        · simp [createNoteWithAttachments] at h2
          subst h2
          rfl
        · simp at h2
    · simp at hc

theorem upload_not_update {c : Call} (h : c.isUpload = true ∨ c.isNote = true) :
    c.isUpdate = false ∧ c.isCreate = false := by
  cases c <;> simp_all [Call.isUpload, Call.isNote, Call.isUpdate, Call.isCreate]

theorem photoPhase_countP_update (env : Upstream) (cid : Option String)
    (ph : Option (List String)) :
    (photoPhase env cid ph).countP Call.isUpdate = 0 := by
  refine List.countP_eq_zero.mpr (fun c hc => ?_)
  simp [(upload_not_update (photoPhase_mem env cid ph c hc)).1]

theorem photoPhase_countP_create (env : Upstream) (cid : Option String)
    (ph : Option (List String)) :
    (photoPhase env cid ph).countP Call.isCreate = 0 := by
  refine List.countP_eq_zero.mpr (fun c hc => ?_)
  simp [(upload_not_update (photoPhase_mem env cid ph c hc)).2]

theorem photoPhase_none_cid (env : Upstream) (ph : Option (List String)) :
    photoPhase env none ph = [] := by
  unfold photoPhase
  cases ph with
  | none => rfl
  | some l => simp [truthy]

theorem firstname_trim_takeWhile (s : String) :
    firstname (some s) = specFirstname (jsTrim s) := by
  unfold firstname nameParts jsOr specFirstname jsTrim
  rw [jsOrStr_eq]
  exact congrArg String.mk (headD_splitSp (jsTrimL s.toList))

theorem lastname_trim_afterSp (s : String) :
    lastname (some s) = specLastname (jsTrim s) := by
  unfold lastname nameParts jsOr specLastname jsTrim
  rw [jsOrStr_eq]
  exact congrArg String.mk (drop_one_splitSp (jsTrimL s.toList))

/-! ## Branch equations of the two handlers -/

theorem handler_409_noid (env : Upstream) (req : Request)
    (hm : req.method = "POST") (h409 : env.createStatus = 409)
    (hp : parseExistingId env.createMessage = none) :
    handler env req =
      ([Call.createContact (contactProps req.body)],
        ⟨200, true, none, successMsg⟩) := by
  unfold handler
  rw [if_neg (by simp [hm]), if_pos h409, hp, photoPhase_none_cid]

theorem handler_409_id (env : Upstream) (req : Request) (d : String)
    (hm : req.method = "POST") (h409 : env.createStatus = 409)
    (hp : parseExistingId env.createMessage = some d) :
    handler env req =
      (Call.createContact (contactProps req.body)
        :: Call.updateContact d (contactProps req.body)
        :: photoPhase env env.updateId req.body.photos,
        ⟨200, true, env.updateId, successMsg⟩) := by
  unfold handler
  rw [if_neg (by simp [hm]), if_pos h409, hp]

theorem handler_ok (env : Upstream) (req : Request)
    (hm : req.method = "POST") (h2 : 200 ≤ env.createStatus)
    (h3 : env.createStatus ≤ 299) :
    handler env req =
      (Call.createContact (contactProps req.body)
        :: photoPhase env env.createId req.body.photos,
        ⟨200, true, env.createId, successMsg⟩) := by
  unfold handler
  rw [if_neg (by simp [hm]), if_neg (by omega), if_pos ⟨h2, h3⟩]

theorem handler_err (env : Upstream) (req : Request)
    (hm : req.method = "POST") (h409 : env.createStatus ≠ 409)
    (hr : ¬(200 ≤ env.createStatus ∧ env.createStatus ≤ 299)) :
    handler env req =
      ([Call.createContact (contactProps req.body)],
        ⟨500, false, none, genericErrorMsg⟩) := by
  unfold handler
  rw [if_neg (by simp [hm]), if_neg h409, if_neg hr]

theorem handlerV2_nokey (env : Upstream) (req : Request)
    (hm : req.method = "POST") (hk : truthy env.apiKey = false) :
    handlerV2 env req = ([], ⟨500, false, none, configErrorMsg⟩) := by
  unfold handlerV2
  rw [if_neg (by simp [hm]), if_pos (by simp [hk])]

theorem handlerV2_ok (env : Upstream) (req : Request)
    (hm : req.method = "POST") (hk : truthy env.apiKey = true)
    (h2 : 200 ≤ env.createStatus) (h3 : env.createStatus ≤ 299) :
    handlerV2 env req =
      (Call.createContact (basicProps req.body)
        :: Call.updateContact (jsInterp env.createId) (customProps req.body)
        :: photoPhase env env.createId req.body.photos,
        ⟨200, true, env.createId, successMsg⟩) := by
  unfold handlerV2
  rw [if_neg (by simp [hm]), if_neg (by simp [hk]), if_neg (by omega),
    if_pos ⟨h2, h3⟩]

theorem handlerV2_err (env : Upstream) (req : Request)
    (hm : req.method = "POST") (hk : truthy env.apiKey = true)
    (h409 : env.createStatus ≠ 409)
    (hr : ¬(200 ≤ env.createStatus ∧ env.createStatus ≤ 299)) :
    handlerV2 env req =
      ([Call.createContact (basicProps req.body)],
        ⟨500, false, none, genericErrorMsg⟩) := by
  unfold handlerV2
  rw [if_neg (by simp [hm]), if_neg (by simp [hk]), if_neg h409, if_neg hr]

@[simp] theorem isUpdate_createContact (p : List (String × String)) :
    (Call.createContact p).isUpdate = false := rfl

@[simp] theorem isUpdate_updateContact (t : String) (p : List (String × String)) :
    (Call.updateContact t p).isUpdate = true := rfl

@[simp] theorem isUpdate_uploadFile (d n : String) :
    (Call.uploadFile d n).isUpdate = false := rfl

@[simp] theorem isUpdate_createNote (c a : String) :
    (Call.createNote c a).isUpdate = false := rfl

@[simp] theorem isCreate_createContact (p : List (String × String)) :
    (Call.createContact p).isCreate = true := rfl

@[simp] theorem isCreate_updateContact (t : String) (p : List (String × String)) :
    (Call.updateContact t p).isCreate = false := rfl

@[simp] theorem isCreate_uploadFile (d n : String) :
    (Call.uploadFile d n).isCreate = false := rfl

@[simp] theorem isCreate_createNote (c a : String) :
    (Call.createNote c a).isCreate = false := rfl

@[simp] theorem isUpload_createContact (p : List (String × String)) :
    (Call.createContact p).isUpload = false := rfl

@[simp] theorem isUpload_updateContact (t : String) (p : List (String × String)) :
    (Call.updateContact t p).isUpload = false := rfl

@[simp] theorem isUpload_uploadFile (d n : String) :
    (Call.uploadFile d n).isUpload = true := rfl

@[simp] theorem isUpload_createNote (c a : String) :
    (Call.createNote c a).isUpload = false := rfl

@[simp] theorem isNote_createContact (p : List (String × String)) :
    (Call.createContact p).isNote = false := rfl

@[simp] theorem isNote_updateContact (t : String) (p : List (String × String)) :
    (Call.updateContact t p).isNote = false := rfl

@[simp] theorem isNote_uploadFile (d n : String) :
    (Call.uploadFile d n).isNote = false := rfl

@[simp] theorem isNote_createNote (c a : String) :
    (Call.createNote c a).isNote = true := rfl

theorem handler_resp_cases (env : Upstream) (req : Request) :
    (handler env req).2.status = 405 ∨ (handler env req).2.status = 200 ∨
      (handler env req).2 = ⟨500, false, none, genericErrorMsg⟩ := by
  unfold handler
  split
  · left; rfl
  · split
    · split
      · right; left; rfl
      · right; left; rfl
    · split
      · right; left; rfl
      · right; right; rfl

theorem handlerV2_resp_cases (env : Upstream) (req : Request) :
    (handlerV2 env req).2.status = 405 ∨ (handlerV2 env req).2.status = 200 ∨
      (handlerV2 env req).2 = ⟨500, false, none, genericErrorMsg⟩ ∨
      (handlerV2 env req).2 = ⟨500, false, none, configErrorMsg⟩ := by
  unfold handlerV2
  split
  · left; rfl
  · split
    · right; right; right; rfl
    · split
      · split
        · right; left; rfl
        · right; left; rfl
      · split
        · right; left; rfl
        · right; right; left; rfl

/-! ## Claims -/

/-- C1 (counterexample): with a 409 whose message is `"conflict"` (no
`Existing ID:` pattern), the handler responds 200, not 500, while indeed
issuing no update call. -/
theorem C1_counterexample :
    parseExistingId "conflict" = none ∧
    (handler { createStatus := 409, createMessage := "conflict" } { }).2.status = 200 ∧
    (handler { createStatus := 409, createMessage := "conflict" } { }).2.status ≠ 500 ∧
    (handler { createStatus := 409, createMessage := "conflict" } { }).1.countP
      Call.isUpdate = 0 := by
  decide

/-- C1 (amended): for every request whose contact-create call returns
HTTP 409 with a message that does not match `Existing ID: <digits>`, the
handler issues no contact-update call, but it responds 200 with
`success:true` and no contact id (not 500). -/
theorem C1_conflict_unparseable (env : Upstream) (req : Request)
    (hm : req.method = "POST") (h409 : env.createStatus = 409)
    (hp : parseExistingId env.createMessage = none) :
    (handler env req).1.countP Call.isUpdate = 0 ∧
    (handler env req).2 = ⟨200, true, none, successMsg⟩ := by
  rw [handler_409_noid env req hm h409 hp]
  exact ⟨by simp, rfl⟩

/-- C1 (witness): the amended statement at the concrete 409 run. -/
theorem C1_witness :
    (handler { createStatus := 409, createMessage := "conflict" } { }).1.countP
      Call.isUpdate = 0 ∧
    (handler { createStatus := 409, createMessage := "conflict" } { }).2 =
      ⟨200, true, none, successMsg⟩ :=
  C1_conflict_unparseable _ _ rfl rfl (by decide)

/-- C2 (counterexample): in the split revision, a fresh-create 2xx run
issues a contact-update (PATCH) call — the custom-properties PATCH — so
the claim's "zero PATCH calls" fails on that revision. -/
theorem C2_counterexample :
    200 ≤ ({ createStatus := 201, createId := some "9" } : Upstream).createStatus ∧
    ({ createStatus := 201, createId := some "9" } : Upstream).createStatus ≤ 299 ∧
    (handlerV2 { createStatus := 201, createId := some "9" } { }).1.countP
      Call.isUpdate = 1 ∧
    (handlerV2 { createStatus := 201, createId := some "9" } { }).2.status = 200 := by
  decide

/-- C2 (amended): for every submission whose contact-create call returns
2xx, the full-payload revision issues exactly one create call and zero
PATCH calls; the split revision issues exactly one create call and
exactly one custom-properties PATCH; both return 200 carrying the
create-response contact id. -/
theorem C2_create_path (env : Upstream) (req : Request)
    (hm : req.method = "POST") (hk : truthy env.apiKey = true)
    (h2 : 200 ≤ env.createStatus) (h3 : env.createStatus ≤ 299) :
    (handler env req).1.countP Call.isCreate = 1 ∧
    (handler env req).1.countP Call.isUpdate = 0 ∧
    (handler env req).2 = ⟨200, true, env.createId, successMsg⟩ ∧
    (handlerV2 env req).1.countP Call.isCreate = 1 ∧
    (handlerV2 env req).1.countP Call.isUpdate = 1 ∧
    (handlerV2 env req).2 = ⟨200, true, env.createId, successMsg⟩ := by
  rw [handler_ok env req hm h2 h3, handlerV2_ok env req hm hk h2 h3]
  refine ⟨?_, ?_, rfl, ?_, ?_, rfl⟩
  · simp [List.countP_cons, photoPhase_countP_create]
  · simp [List.countP_cons, photoPhase_countP_update]
  · simp [List.countP_cons, photoPhase_countP_create]
  · simp [List.countP_cons, photoPhase_countP_update]

/-- C2 (witness): the amended statement at a concrete fresh-create run. -/
theorem C2_witness :
    (handler { createStatus := 201, createId := some "9" } { }).1.countP
      Call.isCreate = 1 ∧
    (handler { createStatus := 201, createId := some "9" } { }).1.countP
      Call.isUpdate = 0 ∧
    (handler { createStatus := 201, createId := some "9" } { }).2 =
      ⟨200, true, some "9", successMsg⟩ ∧
    (handlerV2 { createStatus := 201, createId := some "9" } { }).1.countP
      Call.isCreate = 1 ∧
    (handlerV2 { createStatus := 201, createId := some "9" } { }).1.countP
      Call.isUpdate = 1 ∧
    (handlerV2 { createStatus := 201, createId := some "9" } { }).2 =
      ⟨200, true, some "9", successMsg⟩ :=
  C2_create_path { createStatus := 201, createId := some "9" } { }
    rfl rfl (by decide) (by decide)

/-- C3: for every request whose contact-create call returns 409 with a
message matching `Existing ID: (\d+)`, the handler issues exactly one
contact-update (PATCH) call addressed to the parsed identifier, and —
provided the update response echoes that identifier, as the CRM's
update-by-id endpoint does — the 200 response's contactId equals it. -/
theorem C3_conflict_update (env : Upstream) (req : Request) (d : String)
    (hm : req.method = "POST") (h409 : env.createStatus = 409)
    (hp : parseExistingId env.createMessage = some d)
    (hu : env.updateId = some d) :
    (handler env req).1.filter Call.isUpdate =
      [Call.updateContact d (contactProps req.body)] ∧
    (handler env req).2.status = 200 ∧
    (handler env req).2.success = true ∧
    (handler env req).2.contactId = some d := by
  rw [handler_409_id env req d hm h409 hp]
  refine ⟨?_, rfl, rfl, hu⟩
  have hpp := photoPhase_mem env env.updateId req.body.photos
  simp only [List.filter_cons, isUpdate_createContact, isUpdate_updateContact]
  simp only [Bool.false_eq_true, if_false, if_true]
  rw [List.filter_eq_nil_iff.mpr]
  intro c hc
  rcases hpp c hc with h | h <;> cases c <;> simp_all

/-- C3 (witness): concrete 409 with `Existing ID: 123` issues one PATCH
against `123` and returns contactId `123`. -/
theorem C3_witness :
    (handler
        { createStatus := 409,
          createMessage := "Contact already exists. Existing ID: 123",
          updateId := some "123" } { }).1.filter Call.isUpdate =
      [Call.updateContact "123" (contactProps { })] ∧
    (handler
        { createStatus := 409,
          createMessage := "Contact already exists. Existing ID: 123",
          updateId := some "123" } { }).2.status = 200 ∧
    (handler
        { createStatus := 409,
          createMessage := "Contact already exists. Existing ID: 123",
          updateId := some "123" } { }).2.success = true ∧
    (handler
        { createStatus := 409,
          createMessage := "Contact already exists. Existing ID: 123",
          updateId := some "123" } { }).2.contactId = some "123" :=
  C3_conflict_update _ _ "123" rfl rfl (by decide) rfl

/-- C4 (counterexample): the full-payload revision has no configuration
check: with the API key absent it still issues the contact-create call
and, on upstream success, even returns 200. -/
theorem C4_counterexample :
    ({ apiKey := none, createStatus := 201, createId := some "9" } : Upstream).apiKey
      = none ∧
    (handler { apiKey := none, createStatus := 201, createId := some "9" } { }).1.countP
      Call.isCreate = 1 ∧
    (handler { apiKey := none, createStatus := 201, createId := some "9" } { }).2.status
      = 200 := by
  decide

/-- C4 (amended): the split revision short-circuits to the fixed
configuration-error 500 with no outbound call when the API key is
missing; the full-payload revision issues its contact-create call on
every POST regardless of the key. -/
theorem C4_missing_key (env : Upstream) (req : Request)
    (hm : req.method = "POST") :
    (truthy env.apiKey = false →
      handlerV2 env req = ([], ⟨500, false, none, configErrorMsg⟩)) ∧
    (handler env req).1.countP Call.isCreate = 1 := by
  refine ⟨fun hk => handlerV2_nokey env req hm hk, ?_⟩
  by_cases h409 : env.createStatus = 409
  · cases hp : parseExistingId env.createMessage with
    | none =>
      rw [handler_409_noid env req hm h409 hp]
      simp
    | some d =>
      rw [handler_409_id env req d hm h409 hp]
      simp [List.countP_cons, photoPhase_countP_create]
  · by_cases hr : 200 ≤ env.createStatus ∧ env.createStatus ≤ 299
    · rw [handler_ok env req hm hr.1 hr.2]
      simp [List.countP_cons, photoPhase_countP_create]
    · rw [handler_err env req hm h409 hr]
      simp

/-- C4 (witness): the amended statement at a concrete key-less run. -/
theorem C4_witness :
    handlerV2 { apiKey := none } { } = ([], ⟨500, false, none, configErrorMsg⟩) ∧
    (handler { apiKey := none } { }).1.countP Call.isCreate = 1 :=
  ⟨(C4_missing_key { apiKey := none } { } rfl).1 rfl,
   (C4_missing_key { apiKey := none } { } rfl).2⟩

theorem photosGo_allfail (env : Upstream) (h : ∀ i, env.upload i = none) :
    ∀ (l : List String) (i : Nat), (photosGo env i l).2 = [] := by
  intro l
  induction l with
  | nil => intro i; rfl
  | cons p ps ih =>
    intro i
    simp only [photosGo, uploadFileToHubSpot, h i]
    by_cases hc : hasComma p = true
    · simp [hc, ih (i + 1)]
    · simp [hc, ih (i + 1)]

/-- C5: for every 2xx contact run with three comma-bearing photos where
the second upload fails and the first and third succeed (with truthy
file ids), all three upload calls are issued (the failure aborts
nothing), exactly one note-create call is issued carrying the two
succeeding ids in order joined by `;`, and the request returns 200
`success:true`; and when every upload fails, no note-create call is
issued and the request still returns 200 `success:true`. -/
theorem C5_photo_partial_failure :
    (∀ (env : Upstream) (req : Request) (p1 p2 p3 a b cid : String),
      req.method = "POST" → 200 ≤ env.createStatus → env.createStatus ≤ 299 →
      env.createId = some cid → cid ≠ "" →
      req.body.photos = some [p1, p2, p3] →
      hasComma p1 = true → hasComma p2 = true → hasComma p3 = true →
      env.upload 0 = some a → a ≠ "" → env.upload 1 = none →
      env.upload 2 = some b → b ≠ "" →
      (handler env req).1.countP Call.isUpload = 3 ∧
      (handler env req).1.filter Call.isNote =
        [Call.createNote cid (String.intercalate ";" [a, b])] ∧
      (handler env req).2.status = 200 ∧ (handler env req).2.success = true) ∧
    (∀ (env : Upstream) (req : Request) (l : List String) (cid : String),
      req.method = "POST" → 200 ≤ env.createStatus → env.createStatus ≤ 299 →
      env.createId = some cid → cid ≠ "" →
      req.body.photos = some l →
      (∀ i, env.upload i = none) →
      (handler env req).1.countP Call.isNote = 0 ∧
      (handler env req).2.status = 200 ∧ (handler env req).2.success = true) := by
  constructor
  · intro env req p1 p2 p3 a b cid hm h2 h3 hc hcid hp k1 k2 k3 u0 ha u1 u2 hb
    have ha' : (a == "") = false := beq_eq_false_iff_ne.mpr ha
    have hb' : (b == "") = false := beq_eq_false_iff_ne.mpr hb
    have hgo : photosGo env 0 [p1, p2, p3] =
        ([Call.uploadFile p1 (photoFileName env.now 0),
          Call.uploadFile p2 (photoFileName env.now 1),
          Call.uploadFile p3 (photoFileName env.now 2)], [a, b]) := by
      simp [photosGo, uploadFileToHubSpot, k1, k2, k3, u0, u1, u2, ha', hb']
    have hpp : photoPhase env env.createId req.body.photos =
        [Call.uploadFile p1 (photoFileName env.now 0),
         Call.uploadFile p2 (photoFileName env.now 1),
         Call.uploadFile p3 (photoFileName env.now 2),
         Call.createNote cid (String.intercalate ";" [a, b])] := by
      rw [hc, hp]
      simp only [photoPhase]
      rw [if_pos ⟨by simp, by simp [truthy, hcid]⟩, hgo]
      simp [createNoteWithAttachments, jsInterp]
    rw [handler_ok env req hm h2 h3, hpp]
    refine ⟨by simp [List.countP_cons], by simp [List.filter_cons], rfl, rfl⟩
  · intro env req l cid hm h2 h3 hc hcid hp hu
    rw [handler_ok env req hm h2 h3]
    refine ⟨?_, rfl, rfl⟩
    simp only [List.countP_cons, isNote_createContact, if_false]
    have hz : (photoPhase env env.createId req.body.photos).countP Call.isNote = 0 := by
      rw [hc, hp]
      simp only [photoPhase]
      by_cases hcond : l ≠ [] ∧ truthy (some cid) = true
      · rw [if_pos hcond]
        have hfail := photosGo_allfail env hu l 0
        rw [if_neg (by simp [hfail])]
        rw [List.append_nil]
        refine List.countP_eq_zero.mpr (fun c hcm => ?_)
        have := photosGo_mem_isUpload env l 0 c hcm
        cases c <;> simp_all
      · rw [if_neg hcond]
        rfl
    simp [hz]

/-- C5 (witness): the three-photo scenario and the all-fail scenario at
concrete inputs. -/
theorem C5_witness :
    ((handler
        { createStatus := 201, createId := some "9",
          upload := fun i => if i = 0 then some "a1" else
            if i = 2 then some "c3" else none }
        { body := { photos := some ["d:,x", "d:,y", "d:,z"] } }).1.countP
      Call.isUpload = 3 ∧
    (handler
        { createStatus := 201, createId := some "9",
          upload := fun i => if i = 0 then some "a1" else
            if i = 2 then some "c3" else none }
        { body := { photos := some ["d:,x", "d:,y", "d:,z"] } }).1.filter
      Call.isNote = [Call.createNote "9" (String.intercalate ";" ["a1", "c3"])] ∧
    (handler
        { createStatus := 201, createId := some "9",
          upload := fun i => if i = 0 then some "a1" else
            if i = 2 then some "c3" else none }
        { body := { photos := some ["d:,x", "d:,y", "d:,z"] } }).2.status = 200 ∧
    (handler
        { createStatus := 201, createId := some "9",
          upload := fun i => if i = 0 then some "a1" else
            if i = 2 then some "c3" else none }
        { body := { photos := some ["d:,x", "d:,y", "d:,z"] } }).2.success = true) ∧
    ((handler { createStatus := 201, createId := some "9" }
        { body := { photos := some ["d:,x", "d:,y", "d:,z"] } }).1.countP
      Call.isNote = 0 ∧
    (handler { createStatus := 201, createId := some "9" }
        { body := { photos := some ["d:,x", "d:,y", "d:,z"] } }).2.status = 200 ∧
    (handler { createStatus := 201, createId := some "9" }
        { body := { photos := some ["d:,x", "d:,y", "d:,z"] } }).2.success = true) :=
  ⟨C5_photo_partial_failure.1
      { createStatus := 201, createId := some "9",
        upload := fun i => if i = 0 then some "a1" else
          if i = 2 then some "c3" else none }
      { body := { photos := some ["d:,x", "d:,y", "d:,z"] } }
      "d:,x" "d:,y" "d:,z" "a1" "c3" "9"
      rfl (by decide) (by decide) rfl (by decide) rfl
      (by decide) (by decide) (by decide) rfl (by decide) rfl rfl (by decide),
   C5_photo_partial_failure.2
      { createStatus := 201, createId := some "9" }
      { body := { photos := some ["d:,x", "d:,y", "d:,z"] } }
      ["d:,x", "d:,y", "d:,z"] "9"
      rfl (by decide) (by decide) rfl (by decide) rfl (fun _ => rfl)⟩

/-- C6 (counterexample): in the split revision the create call's payload
is the basic-fields payload, which omits the enumerated keys entirely:
`wearthy_service_type` is not among its keys. -/
theorem C6_counterexample :
    (handlerV2 { createStatus := 201, createId := some "9" } { }).1.headD
      (Call.createNote "" "") = Call.createContact (basicProps { }) ∧
    "wearthy_service_type" ∉ (basicProps ({ } : FormData)).map Prod.fst := by
  decide

/-- C6 (amended): every enumerated key appears in the full-payload
revision's contact payload (used for both create and update) and in the
split revision's custom-properties PATCH payload, with the empty string
as its value when the field is absent; the split revision's basic
create/update payload, however, omits those keys. -/
theorem C6_enum_defaults (f : FormData) :
    (∀ k ∈ enumKeys, k ∈ (contactProps f).map Prod.fst ∧
      k ∈ (customProps f).map Prod.fst) ∧
    (f.serviceType = none → ("wearthy_service_type", "") ∈ contactProps f ∧
      ("wearthy_service_type", "") ∈ customProps f) ∧
    (f.studentCount = none → ("wearthy_student_count", "") ∈ contactProps f ∧
      ("wearthy_student_count", "") ∈ customProps f) ∧
    (f.indicativeBudget = none → ("wearthy_budget_range", "") ∈ contactProps f ∧
      ("wearthy_budget_range", "") ∈ customProps f) ∧
    (f.ageGroup = none → ("wearthy_age_group", "") ∈ contactProps f ∧
      ("wearthy_age_group", "") ∈ customProps f) ∧
    (f.phase = Phase.absent → ("wearthy_planning_stage", "") ∈ contactProps f ∧
      ("wearthy_planning_stage", "") ∈ customProps f) ∧
    (∀ k ∈ enumKeys, k ∉ (basicProps f).map Prod.fst) := by
  refine ⟨?_, ?_, ?_, ?_, ?_, ?_, ?_⟩
  · intro k hk
    simp only [enumKeys, List.mem_cons, List.not_mem_nil, or_false] at hk
    rcases hk with rfl | rfl | rfl | rfl | rfl <;>
      simp [contactProps, customProps, optEntry]
  · intro h
    simp [contactProps, customProps, h, jsOr, optEntry]
  · intro h
    simp [contactProps, customProps, h, jsOr, optEntry]
  · intro h
    simp [contactProps, customProps, h, jsOr, optEntry]
  · intro h
    simp [contactProps, customProps, h, jsOr, optEntry]
  · intro h
    simp [contactProps, customProps, h, jsOr, optEntry, planningStage, jsOrStr]
  · intro k hk
    simp only [enumKeys, List.mem_cons, List.not_mem_nil, or_false] at hk
    cases he : f.email <;> cases hh : f.phone <;> cases hs : f.serviceName <;>
      cases hj : f.position <;>
        rcases hk with rfl | rfl | rfl | rfl | rfl <;>
          simp [basicProps, optEntry, he, hh, hs, hj]

/-- C6 (witness): the amended statement at the all-absent submission. -/
theorem C6_witness :
    ("wearthy_service_type", "") ∈ contactProps { } ∧
    ("wearthy_planning_stage", "") ∈ customProps { } ∧
    "wearthy_age_group" ∈ (contactProps ({ } : FormData)).map Prod.fst ∧
    "wearthy_age_group" ∉ (basicProps ({ } : FormData)).map Prod.fst :=
  ⟨((C6_enum_defaults { }).2.1 rfl).1,
   ((C6_enum_defaults { }).2.2.2.2.2.1 rfl).2,
   ((C6_enum_defaults { }).1 "wearthy_age_group" (by decide)).1,
   (C6_enum_defaults { }).2.2.2.2.2.2 "wearthy_age_group" (by decide)⟩

/-- C7: planning-stage normalization: an array of values becomes the
values joined with `;` (so the two-element example becomes
`"exploring;preparing-next-budget"`), a single value passes through
unchanged, an absent key becomes the empty string, and the outbound
payload carries exactly this normalized value under
`wearthy_planning_stage`. -/
theorem C7_planning_stage_normalization :
    (∀ l, planningStage (Phase.multi l) = String.intercalate ";" l) ∧
    (∀ s, planningStage (Phase.single s) = s) ∧
    planningStage Phase.absent = "" ∧
    (∀ f : FormData,
      ("wearthy_planning_stage", planningStage f.phase) ∈ contactProps f ∧
      ("wearthy_planning_stage", planningStage f.phase) ∈ customProps f) ∧
    planningStage (Phase.multi ["exploring", "preparing-next-budget"]) =
      "exploring;preparing-next-budget" := by
  refine ⟨fun l => rfl, fun s => jsOrStr_eq s, rfl, fun f => ?_, by decide⟩
  constructor <;> simp [contactProps, customProps, jsOrStr_eq]

/-- C8 (counterexample): for the contact name `" John Doe"` (leading
space) the code sends firstname `"John"`, while the claim's
"substring before the first space" is `""` — the claim ignores the
trim step. -/
theorem C8_counterexample :
    firstname (some " John Doe") = "John" ∧
    specFirstname " John Doe" = "" ∧
    lastname (some " John Doe") = "Doe" ∧
    specLastname " John Doe" = "John Doe" ∧
    firstname (some " John Doe") ≠ specFirstname " John Doe" := by
  decide

/-- C8 (amended): after trimming surrounding whitespace, the firstname
sent to the CRM is the substring of the contact name before its first
space (the whole string when it has no space) and the lastname is the
remainder after that first space (or the empty string). -/
theorem C8_name_split (s : String) :
    firstname (some s) = specFirstname (jsTrim s) ∧
    lastname (some s) = specLastname (jsTrim s) :=
  ⟨firstname_trim_takeWhile s, lastname_trim_afterSp s⟩

/-- C9 (counterexample): two hard-failure runs of the split revision —
missing API key versus upstream 503 — both return 500 but with two
different bodies, so 500 bodies are not all identical. -/
theorem C9_counterexample :
    (handlerV2 { apiKey := none } { }).2.status = 500 ∧
    (handlerV2 { apiKey := some "k", createStatus := 503 } { }).2.status = 500 ∧
    (handlerV2 { apiKey := none } { }).2.message ≠
      (handlerV2 { apiKey := some "k", createStatus := 503 } { }).2.message := by
  decide

/-- C9 (amended): every 500 body is one of two request-independent
constants — the generic catch-path message, or (split revision only) the
configuration-error message — each carrying `success:false` and no
contact id, so no internal error detail reaches the client; within the
full-payload revision any two 500 bodies are identical. -/
theorem C9_fixed_error_bodies (env env2 : Upstream) (req req2 : Request) :
    ((handler env req).2.status = 500 →
      (handler env req).2 = ⟨500, false, none, genericErrorMsg⟩) ∧
    ((handlerV2 env req).2.status = 500 →
      (handlerV2 env req).2 = ⟨500, false, none, genericErrorMsg⟩ ∨
      (handlerV2 env req).2 = ⟨500, false, none, configErrorMsg⟩) ∧
    ((handler env req).2.status = 500 → (handler env2 req2).2.status = 500 →
      (handler env req).2.message = (handler env2 req2).2.message) := by
  have case1 : (handler env req).2.status = 500 →
      (handler env req).2 = ⟨500, false, none, genericErrorMsg⟩ := by
    intro h5
    rcases handler_resp_cases env req with ha | ha | ha
    · rw [h5] at ha; omega
    · rw [h5] at ha; omega
    · exact ha
  have case2 : (handler env2 req2).2.status = 500 →
      (handler env2 req2).2 = ⟨500, false, none, genericErrorMsg⟩ := by
    intro h5
    rcases handler_resp_cases env2 req2 with ha | ha | ha
    · rw [h5] at ha; omega
    · rw [h5] at ha; omega
    · exact ha
  refine ⟨case1, ?_, fun h5 h5b => ?_⟩
  · intro h5
    rcases handlerV2_resp_cases env req with ha | ha | ha | ha
    · rw [h5] at ha; omega
    · rw [h5] at ha; omega
    · exact Or.inl ha
    · exact Or.inr ha
  · rw [case1 h5, case2 h5b]

/-- C9 (witness): the amended statement at concrete hard-failure runs. -/
theorem C9_witness :
    (handler { createStatus := 503 } { }).2 = ⟨500, false, none, genericErrorMsg⟩ ∧
    ((handlerV2 { apiKey := none } { }).2 = ⟨500, false, none, genericErrorMsg⟩ ∨
      (handlerV2 { apiKey := none } { }).2 = ⟨500, false, none, configErrorMsg⟩) ∧
    (handler { createStatus := 503 } { }).2.message =
      (handler { createStatus := 400 } { }).2.message :=
  ⟨(C9_fixed_error_bodies { createStatus := 503 } { createStatus := 400 } { } { }).1
      (by decide),
   (C9_fixed_error_bodies { apiKey := none } { apiKey := none } { } { }).2.1
      (by decide),
   (C9_fixed_error_bodies { createStatus := 503 } { createStatus := 400 } { } { }).2.2
      (by decide) (by decide)⟩

/-- C10 (counterexample): a photo payload with a comma but invalid
base64 after it does not make `uploadFileToHubSpot` return null:
`Buffer.from` decodes strings leniently without throwing, the upload
call is issued, and the helper returns whatever id the upstream grants. -/
theorem C10_counterexample :
    hasComma "data:image/jpeg;base64,!!!" = true ∧
    uploadFileToHubSpot (some "7") "data:image/jpeg;base64,!!!" "f.jpg" =
      ([Call.uploadFile "data:image/jpeg;base64,!!!" "f.jpg"], some "7") ∧
    (uploadFileToHubSpot (some "7") "data:image/jpeg;base64,!!!" "f.jpg").2 ≠
      none := by
  decide

/-- C10 (amended): a photo payload without a comma makes
`uploadFileToHubSpot` return null without issuing an upload call (the
decode step throws and is caught); with a comma the upload call is
always issued — however malformed the base64 — and the helper returns
the upstream outcome; in every case a 2xx contact run returns 200 with
`success:true` whatever the photos contain. -/
theorem C10_upload_malformed :
    (∀ (res : Option String) (d n : String), hasComma d = false →
      uploadFileToHubSpot res d n = ([], none)) ∧
    (∀ (res : Option String) (d n : String), hasComma d = true →
      uploadFileToHubSpot res d n = ([Call.uploadFile d n], res)) ∧
    (∀ (env : Upstream) (req : Request), req.method = "POST" →
      200 ≤ env.createStatus → env.createStatus ≤ 299 →
      (handler env req).2.status = 200 ∧ (handler env req).2.success = true) := by
  refine ⟨fun res d n h => ?_, fun res d n h => ?_, fun env req hm h2 h3 => ?_⟩
  · simp [uploadFileToHubSpot, h]
  · simp [uploadFileToHubSpot, h]
  · rw [handler_ok env req hm h2 h3]
    exact ⟨rfl, rfl⟩

/-- C10 (witness): the amended statement at a comma-less payload and at
a run whose only photo is that malformed payload. -/
theorem C10_witness :
    uploadFileToHubSpot (some "9") "nocomma" "f.jpg" = ([], none) ∧
    (handler { createStatus := 201, createId := some "9" }
        { body := { photos := some ["nocomma"] } }).2.status = 200 :=
  ⟨C10_upload_malformed.1 (some "9") "nocomma" "f.jpg" (by decide),
   (C10_upload_malformed.2.2 { createStatus := 201, createId := some "9" }
      { body := { photos := some ["nocomma"] } } rfl (by decide) (by decide)).1⟩

end Wearthy
